import Mathlib

/-!
Verification of the asynchronous request/response correlation layer of the
open62541 client (header `include/open62541/client_highlevel_async.h`).

The repository snapshot ships only the public header: the callback typedefs
and entry-point declarations are embedded directly from it, while the
behaviour of the dispatcher, completion router, timeout sweeper, shutdown
drainer, cancellation coordinator and secure-channel renewal scheduler is
modelled from the specification (the C translation units implementing
`__UA_Client_AsyncService` and friends are not part of the snapshot).
States are explicit records and every operation is a pure function on them;
driver activity is a list of actions folded over the state.
-/

namespace Open62541

/-! ## Status codes (numeric values from the OPC UA status code table) -/

def UA_STATUSCODE_GOOD : Nat := 0x00000000
def UA_STATUSCODE_GOODCALLAGAIN : Nat := 0x00A90000
def UA_STATUSCODE_BADTIMEOUT : Nat := 0x800A0000
def UA_STATUSCODE_BADSHUTDOWN : Nat := 0x80AD0000
def UA_STATUSCODE_BADINVALIDSTATE : Nat := 0x80AF0000
def UA_STATUSCODE_BADENCODINGERROR : Nat := 0x80060000
def UA_STATUSCODE_BADNOTFOUND : Nat := 0x803E0000

/-- A status is good when the severity bits (top two bits of the 32-bit
code) are zero. -/
def isGoodStatus (s : Nat) : Bool := s / 0x40000000 == 0

/-! ## Data model -/

/-- Connection-wide configuration: `config->timeout`, the default timeout
for a service call in the absence of a per-request `timeoutHint`. -/
structure Config where
  timeout : Nat
deriving Repr, DecidableEq

/-- The value/response datatypes appearing in the async callback typedefs
of `client_highlevel_async.h`. -/
inductive UAType where
  | voidTy
  | dataValue
  | nodeId
  | variant
  | nodeClass
  | qualifiedName
  | localizedText
  | uint32
  | boolean
  | byte
  | int32
  | double
  | readResponse
  | writeResponse
  | browseResponse
  | browseNextResponse
  | callResponse
  | addNodesResponse
deriving Repr, DecidableEq

/-- Modelled from the spec: a PendingRequest as owned by the
PendingRequestRegistry while in flight (`requestId`, `requestHandle`,
response-shape descriptor, `dispatchTime` and `deadline`). -/
structure PendingRequest where
  requestId : Nat
  requestHandle : Nat
  shape : UAType
  dispatchTime : Nat
  deadline : Nat
deriving Repr, DecidableEq

/-- One callback invocation as observed by the caller: the requestId and
requestHandle of the completed request, the response shape it was decoded
(or synthesized) with, the delivered status code, and whether the response
was a synthesized "empty" value (timeout / shutdown) rather than a decoded
inbound message. -/
structure CompletionEvent where
  requestId : Nat
  requestHandle : Nat
  shape : UAType
  status : Nat
  synthesized : Bool
deriving Repr, DecidableEq

/-- Modelled from the spec: the client connection state visible to this
layer.  `pending` is the registry, `events` the history of callback
invocations, `dispatched` the issue history of (requestId, requestHandle)
pairs produced by the IdentifierAllocator. -/
structure ClientState where
  pending : List PendingRequest
  nextRequestId : Nat
  nextAutoHandle : Nat
  shuttingDown : Bool
  events : List CompletionEvent
  dispatched : List (Nat × Nat)
deriving Repr, DecidableEq

/-- Auto-generated request handles start above 100,000 (header: "the client
will auto-generate a requestHandle >100,000 if none is defined"). -/
def autoHandleBase : Nat := 100001

def initState : ClientState :=
  { pending := []
    nextRequestId := 1
    nextAutoHandle := autoHandleBase
    shuttingDown := false
    events := []
    dispatched := [] }

/-! ## Operations -/

/-- Modelled from the spec: the generalized AsyncServiceDispatcher behind
`__UA_Client_AsyncService` (its C translation unit is not in the snapshot).
Fails synchronously with `UA_STATUSCODE_BADINVALIDSTATE` while shutting
down and with `UA_STATUSCODE_BADENCODINGERROR` when the request cannot be
serialized; otherwise allocates a fresh requestId, takes the caller-chosen
requestHandle or allocates one from the reserved auto range, computes
deadline = dispatchTime + (timeoutHint when present, else config->timeout),
and inserts the `InFlight` entry. -/
def __UA_Client_AsyncService (cfg : Config) (now : Nat) (encodable : Bool)
    (timeoutHint : Option Nat) (requestHandle : Option Nat) (shape : UAType)
    (st : ClientState) : Except Nat (Nat × ClientState) :=
  if st.shuttingDown then
    .error UA_STATUSCODE_BADINVALIDSTATE
  else if !encodable then
    .error UA_STATUSCODE_BADENCODINGERROR
  else
    let rid := st.nextRequestId
    let h := requestHandle.getD st.nextAutoHandle
    .ok (rid,
      { st with
        pending := st.pending ++
          [{ requestId := rid, requestHandle := h, shape := shape
             dispatchTime := now
             deadline := now + timeoutHint.getD cfg.timeout }]
        nextRequestId := rid + 1
        nextAutoHandle :=
          if requestHandle.isNone then st.nextAutoHandle + 1 else st.nextAutoHandle
        dispatched := st.dispatched ++ [(rid, h)] })

/-- Modelled from the spec: the CompletionRouter.  An inbound response (or
synthesized failure) tagged with a requestId completes the matching entry:
absent entries are discarded silently, present entries are removed from the
registry in the same step that records the single callback invocation. -/
def routeResponse (rid status : Nat) (st : ClientState) : ClientState :=
  match st.pending.find? (fun p => p.requestId == rid) with
  | none => st
  | some p =>
    { st with
      pending := st.pending.filter (fun q => q.requestId != rid)
      events := st.events ++
        [{ requestId := rid, requestHandle := p.requestHandle
           shape := p.shape, status := status, synthesized := false }] }

/-- An entry's deadline has elapsed at time `now`. -/
def expired (now : Nat) (p : PendingRequest) : Bool :=
  decide (p.deadline ≤ now)

/-- The synthesized "empty response of the expected shape" carrying
`UA_STATUSCODE_BADTIMEOUT` for an expired entry. -/
def timeoutEvent (p : PendingRequest) : CompletionEvent :=
  { requestId := p.requestId, requestHandle := p.requestHandle
    shape := p.shape, status := UA_STATUSCODE_BADTIMEOUT, synthesized := true }

/-- The synthesized "empty response of the expected shape" carrying
`UA_STATUSCODE_BADSHUTDOWN` for an entry drained at teardown. -/
def shutdownEvent (p : PendingRequest) : CompletionEvent :=
  { requestId := p.requestId, requestHandle := p.requestHandle
    shape := p.shape, status := UA_STATUSCODE_BADSHUTDOWN, synthesized := true }

/-- Modelled from the spec: the TimeoutSweeper.  Every `InFlight` entry
whose deadline has passed is removed and receives a synthesized failure
with status `UA_STATUSCODE_BADTIMEOUT`. -/
def sweepTimeouts (now : Nat) (st : ClientState) : ClientState :=
  { st with
    pending := st.pending.filter (fun p => !expired now p)
    events := st.events ++ (st.pending.filter (expired now)).map timeoutEvent }

/-- Modelled from the spec: the ShutdownDrainer.  Invoked at teardown, it
synthesizes a `UA_STATUSCODE_BADSHUTDOWN` failure for every still-pending
entry, empties the registry, and marks the connection shutting down so the
dispatcher rejects all subsequent calls. -/
def drainOnShutdown (st : ClientState) : ClientState :=
  { st with
    shuttingDown := true
    pending := []
    events := st.events ++ st.pending.map shutdownEvent }

/-- Result of a CancellationCoordinator entry point: the returned status,
whether a protocol-level Cancel request was sent, the value written through
the `cancelCount` output pointer (`none` when the pointer is NULL or on
failure), and the client state after the call. -/
structure CancelResult where
  statusCode : Nat
  cancelSent : Bool
  cancelCount : Option Nat
  finalState : ClientState
deriving Repr, DecidableEq

/-- Modelled from the spec: `UA_Client_cancelByRequestHandle`.  Sends a
Cancel request carrying `requestHandle`; the server cancels the subset
`serverCancelled` of the operations sharing that handle and reports their
count.  No PendingRequest is removed locally.  The count is written only
when the output pointer is non-NULL (`countOut`). -/
def UA_Client_cancelByRequestHandle (requestHandle : Nat)
    (serverCancelled : List Nat) (countOut : Bool)
    (st : ClientState) : CancelResult :=
  let cnt := ((st.pending.filter (fun p => p.requestHandle == requestHandle)).filter
      (fun p => serverCancelled.contains p.requestId)).length
  { statusCode := UA_STATUSCODE_GOOD
    cancelSent := true
    cancelCount := if countOut then some cnt else none
    finalState := st }

/-- Modelled from the spec: `UA_Client_cancelByRequestId`.  Resolves the
requestId to the requestHandle of the still-pending entry and delegates to
`UA_Client_cancelByRequestHandle`; fails with `UA_STATUSCODE_BADNOTFOUND`,
sending nothing, when no entry with that requestId is still pending. -/
def UA_Client_cancelByRequestId (requestId : Nat)
    (serverCancelled : List Nat) (countOut : Bool)
    (st : ClientState) : CancelResult :=
  match st.pending.find? (fun p => p.requestId == requestId) with
  | none =>
    { statusCode := UA_STATUSCODE_BADNOTFOUND
      cancelSent := false
      cancelCount := none
      finalState := st }
  | some p =>
    UA_Client_cancelByRequestHandle p.requestHandle serverCancelled countOut st

/-! ## Secure-channel renewal -/

inductive RenewState where
  | Active
  | RenewalInFlight
deriving Repr, DecidableEq

/-- Modelled from the spec: ChannelRenewalState — token issue time, token
lifetime, and whether a renewal OPN message is already in flight. -/
structure ChannelRenewalState where
  tokenIssuedAt : Nat
  tokenLifetime : Nat
  state : RenewState
deriving Repr, DecidableEq

/-- Result of a renewal check: returned status, whether an OPN renewal
message was sent by this call, and the renewal state afterwards. -/
structure RenewResult where
  statusCode : Nat
  sentRenewal : Bool
  renewState : ChannelRenewalState
deriving Repr, DecidableEq

/-- 75% of the token lifetime has elapsed at `now` (in integers:
4·elapsed ≥ 3·lifetime). -/
def renewalDue (now : Nat) (crs : ChannelRenewalState) : Bool :=
  decide (3 * crs.tokenLifetime ≤ 4 * (now - crs.tokenIssuedAt))

/-- Modelled from the spec: `UA_Client_renewSecureChannel`.  Before 75% of
the token lifetime has elapsed it returns `UA_STATUSCODE_GOODCALLAGAIN`
and sends nothing.  Once the threshold is reached it returns the current
`connectStatus`; the OPN renewal message is sent exactly on the transition
`Active → RenewalInFlight`, and a call finding a renewal already in flight
sends nothing further. -/
def UA_Client_renewSecureChannel (connectStatus now : Nat)
    (crs : ChannelRenewalState) : RenewResult :=
  if !renewalDue now crs then
    { statusCode := UA_STATUSCODE_GOODCALLAGAIN
      sentRenewal := false
      renewState := crs }
  else
    match crs.state with
    | .Active =>
      { statusCode := connectStatus
        sentRenewal := true
        renewState := { crs with state := .RenewalInFlight } }
    | .RenewalInFlight =>
      { statusCode := connectStatus
        sentRenewal := false
        renewState := crs }

/-! ## Driver traces -/

/-- One action of the external driver loop or of a caller thread. -/
inductive Action where
  | dispatch (now : Nat) (encodable : Bool) (timeoutHint : Option Nat)
      (requestHandle : Option Nat) (shape : UAType)
  | response (requestId status : Nat)
  | sweep (now : Nat)
  | drain
  | cancelHandle (requestHandle : Nat) (serverCancelled : List Nat) (countOut : Bool)
  | cancelId (requestId : Nat) (serverCancelled : List Nat) (countOut : Bool)
deriving Repr, DecidableEq

/-- The state after one action (a failed dispatch or cancel leaves the
state unchanged). -/
def applyAction (cfg : Config) (st : ClientState) : Action → ClientState
  | .dispatch now enc th h shape =>
    match __UA_Client_AsyncService cfg now enc th h shape st with
    | .ok r => r.2
    | .error _ => st
  | .response rid status => routeResponse rid status st
  | .sweep now => sweepTimeouts now st
  | .drain => drainOnShutdown st
  | .cancelHandle h cancelled countOut =>
    (UA_Client_cancelByRequestHandle h cancelled countOut st).finalState
  | .cancelId rid cancelled countOut =>
    (UA_Client_cancelByRequestId rid cancelled countOut st).finalState

/-- The state after a whole trace of driver/caller actions. -/
def run (cfg : Config) (st : ClientState) (acts : List Action) : ClientState :=
  acts.foldl (applyAction cfg) st

/-! ## Callback typedef shapes

The argument lists of the async callback typedefs, embedded one-for-one
from `client_highlevel_async.h`. -/

/-- One argument of an async callback, as declared in the header. -/
inductive CallbackArg where
  | client
  | userdata
  | requestId
  | status
  | valuePtr (t : UAType)
  | responsePtr (t : UAType)
deriving Repr, DecidableEq

/-- `(UA_Client *client, void *userdata, UA_UInt32 requestId, void *response)` -/
def UA_ClientAsyncServiceCallback : List CallbackArg :=
  [.client, .userdata, .requestId, .responsePtr .voidTy]

/-- `(client, userdata, requestId, UA_StatusCode status, void *result)` -/
def UA_ClientAsyncOperationCallback : List CallbackArg :=
  [.client, .userdata, .requestId, .status, .valuePtr .voidTy]

/-- `(client, userdata, requestId, UA_ReadResponse *rr)` -/
def UA_ClientAsyncReadCallback : List CallbackArg :=
  [.client, .userdata, .requestId, .responsePtr .readResponse]

/-- `(client, userdata, requestId, UA_WriteResponse *wr)` -/
def UA_ClientAsyncWriteCallback : List CallbackArg :=
  [.client, .userdata, .requestId, .responsePtr .writeResponse]

/-- `(client, userdata, requestId, UA_BrowseResponse *wr)` -/
def UA_ClientAsyncBrowseCallback : List CallbackArg :=
  [.client, .userdata, .requestId, .responsePtr .browseResponse]

/-- `(client, userdata, requestId, UA_BrowseNextResponse *wr)` -/
def UA_ClientAsyncBrowseNextCallback : List CallbackArg :=
  [.client, .userdata, .requestId, .responsePtr .browseNextResponse]

/-- `(client, userdata, requestId, status, UA_DataValue *attribute)` -/
def UA_ClientAsyncReadAttributeCallback : List CallbackArg :=
  [.client, .userdata, .requestId, .status, .valuePtr .dataValue]

/-- `(client, userdata, requestId, status, UA_DataValue *value)` -/
def UA_ClientAsyncReadValueAttributeCallback : List CallbackArg :=
  [.client, .userdata, .requestId, .status, .valuePtr .dataValue]

/-- `(client, userdata, requestId, status, UA_NodeId *dataType)` -/
def UA_ClientAsyncReadDataTypeAttributeCallback : List CallbackArg :=
  [.client, .userdata, .requestId, .status, .valuePtr .nodeId]

/-- `(client, userdata, requestId, status, UA_Variant *arrayDimensions)` -/
def UA_ClientReadArrayDimensionsAttributeCallback : List CallbackArg :=
  [.client, .userdata, .requestId, .status, .valuePtr .variant]

/-- `(client, userdata, requestId, status, UA_NodeClass *nodeClass)` -/
def UA_ClientAsyncReadNodeClassAttributeCallback : List CallbackArg :=
  [.client, .userdata, .requestId, .status, .valuePtr .nodeClass]

/-- `(client, userdata, requestId, status, UA_QualifiedName *browseName)` -/
def UA_ClientAsyncReadBrowseNameAttributeCallback : List CallbackArg :=
  [.client, .userdata, .requestId, .status, .valuePtr .qualifiedName]

/-- `(client, userdata, requestId, status, UA_LocalizedText *displayName)` -/
def UA_ClientAsyncReadDisplayNameAttributeCallback : List CallbackArg :=
  [.client, .userdata, .requestId, .status, .valuePtr .localizedText]

/-- `(client, userdata, requestId, status, UA_LocalizedText *description)` -/
def UA_ClientAsyncReadDescriptionAttributeCallback : List CallbackArg :=
  [.client, .userdata, .requestId, .status, .valuePtr .localizedText]

/-- `(client, userdata, requestId, status, UA_UInt32 *writeMask)` -/
def UA_ClientAsyncReadWriteMaskAttributeCallback : List CallbackArg :=
  [.client, .userdata, .requestId, .status, .valuePtr .uint32]

/-- `(client, userdata, requestId, status, UA_UInt32 *writeMask)` -/
def UA_ClientAsyncReadUserWriteMaskAttributeCallback : List CallbackArg :=
  [.client, .userdata, .requestId, .status, .valuePtr .uint32]

/-- `(client, userdata, requestId, status, UA_Boolean *isAbstract)` -/
def UA_ClientAsyncReadIsAbstractAttributeCallback : List CallbackArg :=
  [.client, .userdata, .requestId, .status, .valuePtr .boolean]

/-- `(client, userdata, requestId, status, UA_Boolean *symmetric)` -/
def UA_ClientAsyncReadSymmetricAttributeCallback : List CallbackArg :=
  [.client, .userdata, .requestId, .status, .valuePtr .boolean]

/-- `(client, userdata, requestId, status, UA_LocalizedText *inverseName)` -/
def UA_ClientAsyncReadInverseNameAttributeCallback : List CallbackArg :=
  [.client, .userdata, .requestId, .status, .valuePtr .localizedText]

/-- `(client, userdata, requestId, status, UA_Boolean *containsNoLoops)` -/
def UA_ClientAsyncReadContainsNoLoopsAttributeCallback : List CallbackArg :=
  [.client, .userdata, .requestId, .status, .valuePtr .boolean]

/-- `(client, userdata, requestId, status, UA_Byte *eventNotifier)` -/
def UA_ClientAsyncReadEventNotifierAttributeCallback : List CallbackArg :=
  [.client, .userdata, .requestId, .status, .valuePtr .byte]

/-- `(client, userdata, requestId, status, UA_Int32 *valueRank)` -/
def UA_ClientAsyncReadValueRankAttributeCallback : List CallbackArg :=
  [.client, .userdata, .requestId, .status, .valuePtr .int32]

/-- `(client, userdata, requestId, status, UA_Byte *accessLevel)` -/
def UA_ClientAsyncReadAccessLevelAttributeCallback : List CallbackArg :=
  [.client, .userdata, .requestId, .status, .valuePtr .byte]

/-- `(client, userdata, requestId, status, UA_UInt32 *accessLevelEx)` -/
def UA_ClientAsyncReadAccessLevelExAttributeCallback : List CallbackArg :=
  [.client, .userdata, .requestId, .status, .valuePtr .uint32]

/-- `(client, userdata, requestId, status, UA_Byte *userAccessLevel)` -/
def UA_ClientAsyncReadUserAccessLevelAttributeCallback : List CallbackArg :=
  [.client, .userdata, .requestId, .status, .valuePtr .byte]

/-- `(client, userdata, requestId, status, UA_Double *minimumSamplingInterval)` -/
def UA_ClientAsyncReadMinimumSamplingIntervalAttributeCallback : List CallbackArg :=
  [.client, .userdata, .requestId, .status, .valuePtr .double]

/-- `(client, userdata, requestId, status, UA_Boolean *historizing)` -/
def UA_ClientAsyncReadHistorizingAttributeCallback : List CallbackArg :=
  [.client, .userdata, .requestId, .status, .valuePtr .boolean]

/-- `(client, userdata, requestId, status, UA_Boolean *executable)` -/
def UA_ClientAsyncReadExecutableAttributeCallback : List CallbackArg :=
  [.client, .userdata, .requestId, .status, .valuePtr .boolean]

/-- `(client, userdata, requestId, status, UA_Boolean *userExecutable)` -/
def UA_ClientAsyncReadUserExecutableAttributeCallback : List CallbackArg :=
  [.client, .userdata, .requestId, .status, .valuePtr .boolean]

/-- `(client, userdata, requestId, UA_CallResponse *cr)` -/
def UA_ClientAsyncCallCallback : List CallbackArg :=
  [.client, .userdata, .requestId, .responsePtr .callResponse]

/-- `(client, userdata, requestId, UA_AddNodesResponse *ar)` -/
def UA_ClientAsyncAddNodesCallback : List CallbackArg :=
  [.client, .userdata, .requestId, .responsePtr .addNodesResponse]

/-- Callback type of every `UA_CLIENT_ASYNCWRITE` single-attribute write
adapter (e.g. `UA_Client_writeValueAttribute_async`): the macro declares the
parameter as `UA_ClientAsyncWriteCallback callback`. -/
def UA_CLIENT_ASYNCWRITE_callback : List CallbackArg :=
  UA_ClientAsyncWriteCallback

/-- Callback type of `UA_Client_call_async`. -/
def UA_Client_call_async_callback : List CallbackArg :=
  UA_ClientAsyncCallCallback

/-- Callback type of the `UA_Client_add*Node_async` calls. -/
def UA_Client_addNode_async_callback : List CallbackArg :=
  UA_ClientAsyncAddNodesCallback

/-- The uniform single-operation shape claimed by the spec:
`(context, requestId, status, value)` — client, userdata, requestId, a
separate status argument and a typed value pointer. -/
def hasUniformOperationShape : List CallbackArg → Bool
  | [.client, .userdata, .requestId, .status, .valuePtr _] => true
  | _ => false

/-- Modelled from the spec: how a single-operation adapter invokes its
callback — when the overall/operation status is not good, the value pointer
passed to the callback is NULL (`none`). -/
def adapterValueArg (status : Nat) (decoded : Option UAType) : Option UAType :=
  if isGoodStatus status then decoded else none

/-- requestIds of the registry's in-flight entries. -/
def pendingIds (st : ClientState) : List Nat :=
  st.pending.map PendingRequest.requestId

/-- requestIds of the recorded callback invocations, in order. -/
def eventIds (st : ClientState) : List Nat :=
  st.events.map CompletionEvent.requestId

/-- requestIds ever issued by the IdentifierAllocator, in issue order. -/
def dispatchedIds (st : ClientState) : List Nat :=
  st.dispatched.map Prod.fst

/-! ## Helper list lemmas -/

theorem map_filter_swap {α β : Type} (f : α → β) (q : β → Bool) (l : List α) :
    (l.filter (fun a => q (f a))).map f = (l.map f).filter q := by
  induction l with
  | nil => rfl
  | cons a t ih => cases h : q (f a) <;> simp [List.filter_cons, h, ih]

theorem filter_filter_swap {α : Type} (p q : α → Bool) (l : List α) :
    (l.filter p).filter q = (l.filter q).filter p := by
  induction l with
  | nil => rfl
  | cons a t ih => cases hp : p a <;> cases hq : q a <;>
      simp [List.filter_cons, hp, hq, ih]

theorem filter_singleton_of_nodup_key {l : List PendingRequest}
    (hn : (l.map PendingRequest.requestId).Nodup) {p : PendingRequest} (hp : p ∈ l) :
    l.filter (fun q => q.requestId == p.requestId) = [p] := by
  induction l with
  | nil => cases hp
  | cons a t ih =>
    simp only [List.map_cons, List.nodup_cons] at hn
    rcases List.mem_cons.mp hp with rfl | hpt
    · have ht : t.filter (fun q => q.requestId == p.requestId) = [] := by
        refine List.filter_eq_nil_iff.mpr (fun q hq hbeq => ?_)
        exact hn.1 (by
          have : q.requestId = p.requestId := by simpa using hbeq
          exact this ▸ List.mem_map_of_mem PendingRequest.requestId hq)
      simp [List.filter_cons, ht]
    · have hne : (a.requestId == p.requestId) = false := by
        apply beq_eq_false_iff_ne.mpr
        intro hcontra
        exact hn.1 (hcontra ▸ List.mem_map_of_mem PendingRequest.requestId hpt)
      simp [List.filter_cons, hne, ih hn.2 hpt]

/-! ## The registry invariant -/

/-- The PendingRequestRegistry invariant: every in-flight or completed
requestId was issued by the IdentifierAllocator, issued ids are all below
the allocator's counter and pairwise distinct, the registry and the
callback history are duplicate-free and disjoint, every issued id is
either still in flight or completed (never silently dropped), and a
shutting-down connection has an empty registry. -/
structure Inv (st : ClientState) : Prop where
  pend_sub : ∀ rid, rid ∈ pendingIds st → rid ∈ dispatchedIds st
  ev_sub : ∀ rid, rid ∈ eventIds st → rid ∈ dispatchedIds st
  disp_lt : ∀ rid, rid ∈ dispatchedIds st → rid < st.nextRequestId
  disp_nodup : (dispatchedIds st).Nodup
  pend_nodup : (pendingIds st).Nodup
  ev_nodup : (eventIds st).Nodup
  pend_ev_disj : ∀ rid, rid ∈ pendingIds st → rid ∉ eventIds st
  cover : ∀ rid, rid ∈ dispatchedIds st → rid ∈ pendingIds st ∨ rid ∈ eventIds st
  shut_empty : st.shuttingDown = true → st.pending = []

theorem inv_init : Inv initState := by
  constructor <;> simp [initState, pendingIds, eventIds, dispatchedIds]

/-! ## Dispatch characterization -/

theorem asyncService_shut (cfg : Config) (now : Nat) (enc : Bool)
    (th hdl : Option Nat) (shape : UAType) (st : ClientState)
    (hs : st.shuttingDown = true) :
    __UA_Client_AsyncService cfg now enc th hdl shape st =
      .error UA_STATUSCODE_BADINVALIDSTATE := by
  simp [__UA_Client_AsyncService, hs]

theorem asyncService_noenc (cfg : Config) (now : Nat)
    (th hdl : Option Nat) (shape : UAType) (st : ClientState)
    (hs : st.shuttingDown = false) :
    __UA_Client_AsyncService cfg now false th hdl shape st =
      .error UA_STATUSCODE_BADENCODINGERROR := by
  simp [__UA_Client_AsyncService, hs]

theorem asyncService_ok (cfg : Config) (now : Nat)
    (th hdl : Option Nat) (shape : UAType) (st : ClientState)
    (hs : st.shuttingDown = false) :
    __UA_Client_AsyncService cfg now true th hdl shape st =
      .ok (st.nextRequestId,
        { st with
          pending := st.pending ++
            [{ requestId := st.nextRequestId
               requestHandle := hdl.getD st.nextAutoHandle
               shape := shape, dispatchTime := now
               deadline := now + th.getD cfg.timeout }]
          nextRequestId := st.nextRequestId + 1
          nextAutoHandle :=
            if hdl.isNone then st.nextAutoHandle + 1 else st.nextAutoHandle
          dispatched := st.dispatched ++
            [(st.nextRequestId, hdl.getD st.nextAutoHandle)] }) := by
  simp [__UA_Client_AsyncService, hs]

/-! ## Invariant preservation -/

theorem inv_insert (st : ClientState) (h : Inv st) (hs : st.shuttingDown = false)
    (hdl : Option Nat) (shape : UAType) (now dl : Nat) :
    Inv { st with
      pending := st.pending ++
        [{ requestId := st.nextRequestId
           requestHandle := hdl.getD st.nextAutoHandle
           shape := shape, dispatchTime := now, deadline := dl }]
      nextRequestId := st.nextRequestId + 1
      nextAutoHandle :=
        if hdl.isNone then st.nextAutoHandle + 1 else st.nextAutoHandle
      dispatched := st.dispatched ++
        [(st.nextRequestId, hdl.getD st.nextAutoHandle)] } := by
  have hfresh : st.nextRequestId ∉ dispatchedIds st := fun hmem =>
    Nat.lt_irrefl _ (h.disp_lt _ hmem)
  have hfreshp : st.nextRequestId ∉ pendingIds st := fun hmem =>
    hfresh (h.pend_sub _ hmem)
  have hfreshe : st.nextRequestId ∉ eventIds st := fun hmem =>
    hfresh (h.ev_sub _ hmem)
  constructor
  · intro rid hr
    simp only [pendingIds, dispatchedIds, List.map_append, List.map_cons,
      List.map_nil, List.mem_append, List.mem_singleton] at hr ⊢
    rcases hr with hr | hr
    · exact Or.inl (h.pend_sub rid hr)
    · exact Or.inr hr
  · intro rid hr
    simp only [dispatchedIds, List.map_append, List.mem_append]
    exact Or.inl (h.ev_sub rid hr)
  · intro rid hr
    simp only [dispatchedIds, List.map_append, List.map_cons, List.map_nil,
      List.mem_append, List.mem_singleton] at hr
    rcases hr with hr | hr
    · exact Nat.lt_trans (h.disp_lt rid hr) (Nat.lt_succ_self _)
    · simp [hr]
  · simp only [dispatchedIds, List.map_append, List.map_cons, List.map_nil]
    refine List.Nodup.append h.disp_nodup (List.nodup_singleton _) ?_
    intro x hx hx'
    simp only [List.mem_singleton] at hx'
    exact hfresh (hx' ▸ hx)
  · simp only [pendingIds, List.map_append, List.map_cons, List.map_nil]
    refine List.Nodup.append h.pend_nodup (List.nodup_singleton _) ?_
    intro x hx hx'
    simp only [List.mem_singleton] at hx'
    exact hfreshp (hx' ▸ hx)
  · exact h.ev_nodup
  · intro rid hr
    simp only [pendingIds, List.map_append, List.map_cons, List.map_nil,
      List.mem_append, List.mem_singleton] at hr
    rcases hr with hr | hr
    · exact h.pend_ev_disj rid hr
    · exact hr ▸ hfreshe
  · intro rid hr
    simp only [dispatchedIds, pendingIds, List.map_append, List.map_cons,
      List.map_nil, List.mem_append, List.mem_singleton] at hr ⊢
    rcases hr with hr | hr
    · rcases h.cover rid hr with hc | hc
      · exact Or.inl (Or.inl hc)
      · exact Or.inr hc
    · exact Or.inl (Or.inr hr)
  · intro hshut
    simp only at hshut
    rw [hs] at hshut
    cases hshut

theorem inv_dispatch (cfg : Config) (st : ClientState) (now : Nat) (enc : Bool)
    (th hdl : Option Nat) (shape : UAType) (h : Inv st) :
    Inv (applyAction cfg st (.dispatch now enc th hdl shape)) := by
  cases hs : st.shuttingDown with
  | true =>
    simpa [applyAction, asyncService_shut cfg now enc th hdl shape st hs] using h
  | false =>
    cases enc with
    | false =>
      simpa [applyAction, asyncService_noenc cfg now th hdl shape st hs] using h
    | true =>
      simp only [applyAction, asyncService_ok cfg now th hdl shape st hs]
      exact inv_insert st h hs hdl shape now (now + th.getD cfg.timeout)

theorem pending_filter_map (l : List PendingRequest) (rid : Nat) :
    (l.filter (fun q => q.requestId != rid)).map PendingRequest.requestId =
      (l.map PendingRequest.requestId).filter (fun x => x != rid) := by
  induction l with
  | nil => rfl
  | cons a t ih => cases h : a.requestId != rid <;> simp [List.filter_cons, h, ih]

theorem map_requestId_of_map_event (f : PendingRequest → CompletionEvent)
    (hf : ∀ p, (f p).requestId = p.requestId) (l : List PendingRequest) :
    (l.map f).map CompletionEvent.requestId = l.map PendingRequest.requestId := by
  induction l with
  | nil => rfl
  | cons a t ih => simp [ih, hf]

theorem inv_route (st : ClientState) (rid status : Nat) (h : Inv st) :
    Inv (routeResponse rid status st) := by
  cases hfind : st.pending.find? (fun p => p.requestId == rid) with
  | none =>
    simpa [routeResponse, hfind] using h
  | some p =>
    have hp : p ∈ st.pending := List.mem_of_find?_eq_some hfind
    have hpid : p.requestId = rid := by
      have := List.find?_some hfind
      simpa using this
    have hridp : rid ∈ pendingIds st :=
      hpid ▸ List.mem_map_of_mem PendingRequest.requestId hp
    have hPd : (routeResponse rid status st).pending =
        st.pending.filter (fun q => q.requestId != rid) := by
      simp [routeResponse, hfind]
    have hP : pendingIds (routeResponse rid status st) =
        (pendingIds st).filter (fun x => x != rid) := by
      simp only [pendingIds, hPd]
      exact pending_filter_map st.pending rid
    have hE : eventIds (routeResponse rid status st) = eventIds st ++ [rid] := by
      simp [eventIds, routeResponse, hfind, hpid]
    have hDi : dispatchedIds (routeResponse rid status st) = dispatchedIds st := by
      simp [dispatchedIds, routeResponse, hfind]
    have hN : (routeResponse rid status st).nextRequestId = st.nextRequestId := by
      simp [routeResponse, hfind]
    have hS : (routeResponse rid status st).shuttingDown = st.shuttingDown := by
      simp [routeResponse, hfind]
    constructor
    · intro r hr
      rw [hP] at hr
      rw [hDi]
      exact h.pend_sub r (List.mem_of_mem_filter hr)
    · intro r hr
      rw [hE] at hr
      rw [hDi]
      rcases List.mem_append.mp hr with hr | hr
      · exact h.ev_sub r hr
      · rw [List.mem_singleton.mp hr]
        exact h.pend_sub rid hridp
    · intro r hr
      rw [hDi] at hr
      rw [hN]
      exact h.disp_lt r hr
    · rw [hDi]
      exact h.disp_nodup
    · rw [hP]
      exact h.pend_nodup.filter _
    · rw [hE]
      refine List.Nodup.append h.ev_nodup (List.nodup_singleton _) ?_
      intro x hx hx'
      rw [List.mem_singleton.mp hx'] at hx
      exact h.pend_ev_disj rid hridp hx
    · intro r hr
      rw [hP] at hr
      rw [hE]
      rcases List.mem_filter.mp hr with ⟨hmem, hbeq⟩
      intro hcontra
      rcases List.mem_append.mp hcontra with hc | hc
      · exact h.pend_ev_disj r hmem hc
      · exact (bne_iff_ne.mp hbeq) (List.mem_singleton.mp hc)
    · intro r hr
      rw [hDi] at hr
      rw [hP, hE]
      rcases h.cover r hr with hc | hc
      · by_cases hr2 : r = rid
        · exact Or.inr (List.mem_append.mpr (Or.inr (List.mem_singleton.mpr hr2)))
        · exact Or.inl (List.mem_filter.mpr ⟨hc, bne_iff_ne.mpr hr2⟩)
      · exact Or.inr (List.mem_append.mpr (Or.inl hc))
    · intro hshut
      rw [hS] at hshut
      have hnil := h.shut_empty hshut
      rw [hnil] at hp
      cases hp

theorem inv_sweep (st : ClientState) (now : Nat) (h : Inv st) :
    Inv (sweepTimeouts now st) := by
  have hP : pendingIds (sweepTimeouts now st) =
      (st.pending.filter (fun p => !expired now p)).map PendingRequest.requestId := rfl
  have hE : eventIds (sweepTimeouts now st) =
      eventIds st ++ (st.pending.filter (expired now)).map PendingRequest.requestId := by
    simp only [eventIds, sweepTimeouts, List.map_append]
    rw [map_requestId_of_map_event _ (fun p => rfl)]
  have hkept : ((st.pending.filter (fun p => !expired now p)).map
      PendingRequest.requestId).Sublist (pendingIds st) :=
    (List.filter_sublist _).map _
  have hexp : ((st.pending.filter (expired now)).map
      PendingRequest.requestId).Sublist (pendingIds st) :=
    (List.filter_sublist _).map _
  constructor
  · intro r hr
    rw [hP] at hr
    exact h.pend_sub r (hkept.subset hr)
  · intro r hr
    rw [hE] at hr
    rcases List.mem_append.mp hr with hr | hr
    · exact h.ev_sub r hr
    · exact h.pend_sub r (hexp.subset hr)
  · intro r hr
    exact h.disp_lt r hr
  · exact h.disp_nodup
  · rw [hP]
    exact h.pend_nodup.sublist hkept
  · rw [hE]
    refine List.Nodup.append h.ev_nodup (h.pend_nodup.sublist hexp) ?_
    intro x hx hx'
    exact h.pend_ev_disj x (hexp.subset hx') hx
  · intro r hr
    rw [hP] at hr
    rw [hE]
    rcases List.mem_map.mp hr with ⟨q, hq, rfl⟩
    rcases List.mem_filter.mp hq with ⟨hqmem, hqkept⟩
    intro hcontra
    rcases List.mem_append.mp hcontra with hc | hc
    · exact h.pend_ev_disj _ (List.mem_map_of_mem _ hqmem) hc
    · rcases List.mem_map.mp hc with ⟨q', hq', heq⟩
      rcases List.mem_filter.mp hq' with ⟨hq'mem, hq'exp⟩
      have : q' = q := List.inj_on_of_nodup_map h.pend_nodup hq'mem hqmem heq
      rw [this] at hq'exp
      rw [hq'exp] at hqkept
      cases hqkept
  · intro r hr
    rcases h.cover r hr with hc | hc
    · rcases List.mem_map.mp hc with ⟨q, hq, rfl⟩
      cases hqe : expired now q with
      | true =>
        refine Or.inr ?_
        rw [hE]
        exact List.mem_append.mpr (Or.inr
          (List.mem_map_of_mem _ (List.mem_filter.mpr ⟨hq, hqe⟩)))
      | false =>
        refine Or.inl ?_
        rw [hP]
        exact List.mem_map_of_mem _ (List.mem_filter.mpr ⟨hq, by simp [hqe]⟩)
    · refine Or.inr ?_
      rw [hE]
      exact List.mem_append.mpr (Or.inl hc)
  · intro hshut
    have hnil := h.shut_empty hshut
    show st.pending.filter _ = []
    rw [hnil]
    rfl

theorem inv_drain (st : ClientState) (h : Inv st) : Inv (drainOnShutdown st) := by
  have hE : eventIds (drainOnShutdown st) = eventIds st ++ pendingIds st := by
    simp only [eventIds, drainOnShutdown, List.map_append]
    rw [map_requestId_of_map_event _ (fun p => rfl)]
    rfl
  constructor
  · intro r hr
    simp [pendingIds, drainOnShutdown] at hr
  · intro r hr
    rw [hE] at hr
    rcases List.mem_append.mp hr with hr | hr
    · exact h.ev_sub r hr
    · exact h.pend_sub r hr
  · intro r hr
    exact h.disp_lt r hr
  · exact h.disp_nodup
  · simp [pendingIds, drainOnShutdown]
  · rw [hE]
    refine List.Nodup.append h.ev_nodup h.pend_nodup ?_
    intro x hx hx'
    exact h.pend_ev_disj x hx' hx
  · intro r hr
    simp [pendingIds, drainOnShutdown] at hr
  · intro r hr
    refine Or.inr ?_
    rw [hE]
    rcases h.cover r hr with hc | hc
    · exact List.mem_append.mpr (Or.inr hc)
    · exact List.mem_append.mpr (Or.inl hc)
  · intro _
    rfl

theorem inv_apply (cfg : Config) (st : ClientState) (a : Action) (h : Inv st) :
    Inv (applyAction cfg st a) := by
  cases a with
  | dispatch now enc th hdl shape => exact inv_dispatch cfg st now enc th hdl shape h
  | response rid status => exact inv_route st rid status h
  | sweep now => exact inv_sweep st now h
  | drain => exact inv_drain st h
  | cancelHandle hdl cancelled countOut => exact h
  | cancelId rid cancelled countOut =>
    cases hfind : st.pending.find? (fun p => p.requestId == rid) with
    | none => simpa [applyAction, UA_Client_cancelByRequestId, hfind] using h
    | some p =>
      simpa [applyAction, UA_Client_cancelByRequestId, hfind,
        UA_Client_cancelByRequestHandle] using h

theorem inv_run (cfg : Config) (st : ClientState) (acts : List Action) (h : Inv st) :
    Inv (run cfg st acts) := by
  induction acts generalizing st with
  | nil => exact h
  | cons a t ih => exact ih (applyAction cfg st a) (inv_apply cfg st a h)

/-- Every state reachable by a driver/caller trace satisfies the registry
invariant. -/
theorem inv_reach (cfg : Config) (acts : List Action) :
    Inv (run cfg initState acts) :=
  inv_run cfg initState acts inv_init

/-! ## Shutdown is permanent; traces compose -/

theorem apply_shut (cfg : Config) (st : ClientState) (a : Action)
    (h : st.shuttingDown = true) : (applyAction cfg st a).shuttingDown = true := by
  cases a with
  | dispatch now enc th hdl shape =>
    simp [applyAction, asyncService_shut cfg now enc th hdl shape st h, h]
  | response rid status =>
    cases hfind : st.pending.find? (fun p => p.requestId == rid) with
    | none => simpa [applyAction, routeResponse, hfind] using h
    | some p => simpa [applyAction, routeResponse, hfind] using h
  | sweep now => simpa [applyAction, sweepTimeouts] using h
  | drain => rfl
  | cancelHandle hdl c co => exact h
  | cancelId rid c co =>
    cases hfind : st.pending.find? (fun p => p.requestId == rid) with
    | none => simpa [applyAction, UA_Client_cancelByRequestId, hfind] using h
    | some p =>
      simpa [applyAction, UA_Client_cancelByRequestId, hfind,
        UA_Client_cancelByRequestHandle] using h

theorem run_shut (cfg : Config) (st : ClientState) (acts : List Action)
    (h : st.shuttingDown = true) : (run cfg st acts).shuttingDown = true := by
  induction acts generalizing st with
  | nil => exact h
  | cons a t ih => exact ih (applyAction cfg st a) (apply_shut cfg st a h)

theorem run_append (cfg : Config) (st : ClientState) (l₁ l₂ : List Action) :
    run cfg st (l₁ ++ l₂) = run cfg (run cfg st l₁) l₂ :=
  List.foldl_append _ _ _ _

/-! ## Claim theorems -/

/-- C1: in every reachable state, every requestId issued by a successful
dispatch (dispatch only succeeds while the connection is not shutting down)
is either still in the registry with its callback not yet invoked, or has
been removed from the registry with its callback invoked exactly once —
never twice, and never dropped without an invocation; once the connection
has shut down, every issued requestId has exactly one callback invocation. -/
theorem async_callback_exactly_once (cfg : Config) (acts : List Action) :
    (∀ rid ∈ dispatchedIds (run cfg initState acts),
      (rid ∈ pendingIds (run cfg initState acts) ∧
        (eventIds (run cfg initState acts)).count rid = 0) ∨
      (rid ∉ pendingIds (run cfg initState acts) ∧
        (eventIds (run cfg initState acts)).count rid = 1)) ∧
    ((run cfg initState acts).shuttingDown = true →
      ∀ rid ∈ dispatchedIds (run cfg initState acts),
        (eventIds (run cfg initState acts)).count rid = 1) := by
  have h := inv_reach cfg acts
  constructor
  · intro rid hr
    rcases h.cover rid hr with hc | hc
    · exact Or.inl ⟨hc, List.count_eq_zero.mpr (h.pend_ev_disj rid hc)⟩
    · exact Or.inr ⟨fun hpc => h.pend_ev_disj rid hpc hc,
        List.count_eq_one_of_mem h.ev_nodup hc⟩
  · intro hshut rid hr
    rcases h.cover rid hr with hc | hc
    · rw [pendingIds, h.shut_empty hshut] at hc
      cases hc
    · exact List.count_eq_one_of_mem h.ev_nodup hc

/-- C6: the requestIds issued by the dispatcher over any trace are pairwise
distinct for the lifetime of the connection (the issue history is
duplicate-free), and every issued id stays below the allocator's counter,
so no future dispatch can ever reuse one while a cancellation-by-id
reference to it could still resolve. -/
theorem requestId_unique_for_connection_lifetime (cfg : Config) (acts : List Action) :
    (dispatchedIds (run cfg initState acts)).Nodup ∧
    (∀ rid ∈ dispatchedIds (run cfg initState acts),
      rid < (run cfg initState acts).nextRequestId) :=
  ⟨(inv_reach cfg acts).disp_nodup, (inv_reach cfg acts).disp_lt⟩

/-- C2: draining on shutdown empties the registry and appends exactly one
callback invocation per pending entry — each a synthesized empty response
of that entry's expected shape carrying `UA_STATUSCODE_BADSHUTDOWN` — so N
pending requests yield exactly N shutdown callbacks; afterwards every
dispatch call, even after further driver actions, is rejected with
`UA_STATUSCODE_BADINVALIDSTATE`. -/
theorem shutdown_drain_spec (cfg : Config) (acts more : List Action) (now : Nat)
    (enc : Bool) (th hdl : Option Nat) (shape : UAType) :
    (drainOnShutdown (run cfg initState acts)).pending = [] ∧
    (drainOnShutdown (run cfg initState acts)).events =
      (run cfg initState acts).events ++
        (run cfg initState acts).pending.map shutdownEvent ∧
    (drainOnShutdown (run cfg initState acts)).events.length =
      (run cfg initState acts).events.length +
        (run cfg initState acts).pending.length ∧
    (∀ q : PendingRequest, (shutdownEvent q).status = UA_STATUSCODE_BADSHUTDOWN ∧
      (shutdownEvent q).shape = q.shape ∧ (shutdownEvent q).synthesized = true) ∧
    __UA_Client_AsyncService cfg now enc th hdl shape
        (run cfg (drainOnShutdown (run cfg initState acts)) more) =
      .error UA_STATUSCODE_BADINVALIDSTATE := by
  refine ⟨rfl, rfl, ?_, fun q => ⟨rfl, rfl, rfl⟩, ?_⟩
  · simp [drainOnShutdown]
  · exact asyncService_shut cfg now enc th hdl shape _
      (run_shut cfg _ more rfl)

/-- C7: a dispatch made while the connection is shutting down fails
synchronously with `UA_STATUSCODE_BADINVALIDSTATE`, and a dispatch whose
request cannot be serialized fails synchronously with
`UA_STATUSCODE_BADENCODINGERROR`; in both cases the client state — the
registry and the callback history included — is left completely
unchanged. -/
theorem dispatch_failure_synchronous (cfg : Config) (now : Nat) (enc : Bool)
    (th hdl : Option Nat) (shape : UAType) (st : ClientState) :
    (st.shuttingDown = true →
      __UA_Client_AsyncService cfg now enc th hdl shape st =
        .error UA_STATUSCODE_BADINVALIDSTATE ∧
      applyAction cfg st (.dispatch now enc th hdl shape) = st) ∧
    (st.shuttingDown = false →
      __UA_Client_AsyncService cfg now false th hdl shape st =
        .error UA_STATUSCODE_BADENCODINGERROR ∧
      applyAction cfg st (.dispatch now false th hdl shape) = st) := by
  constructor
  · intro hs
    refine ⟨asyncService_shut cfg now enc th hdl shape st hs, ?_⟩
    simp [applyAction, asyncService_shut cfg now enc th hdl shape st hs]
  · intro hs
    refine ⟨asyncService_noenc cfg now th hdl shape st hs, ?_⟩
    simp [applyAction, asyncService_noenc cfg now th hdl shape st hs]

/-- C5: a renewal check before 75% of the token lifetime has elapsed
returns `UA_STATUSCODE_GOODCALLAGAIN`, sends no renewal message and leaves
the renewal state untouched (an idempotent no-op, safe every tick); once
the threshold is reached the call returns the connection's current
`connectStatus`, and the renewal message is sent exactly on the state
transition from `Active` to `RenewalInFlight` — a call that finds a
renewal already in flight sends nothing further. -/
theorem renewSecureChannel_policy (connectStatus now : Nat)
    (crs : ChannelRenewalState) :
    (renewalDue now crs = true ↔
      3 * crs.tokenLifetime ≤ 4 * (now - crs.tokenIssuedAt)) ∧
    (renewalDue now crs = false →
      UA_Client_renewSecureChannel connectStatus now crs =
        { statusCode := UA_STATUSCODE_GOODCALLAGAIN, sentRenewal := false
          renewState := crs }) ∧
    (renewalDue now crs = true →
      (UA_Client_renewSecureChannel connectStatus now crs).statusCode =
        connectStatus) ∧
    ((UA_Client_renewSecureChannel connectStatus now crs).sentRenewal = true ↔
      renewalDue now crs = true ∧ crs.state = .Active) ∧
    ((UA_Client_renewSecureChannel connectStatus now crs).sentRenewal = true →
      (UA_Client_renewSecureChannel connectStatus now crs).renewState.state =
        .RenewalInFlight) ∧
    (crs.state = .RenewalInFlight →
      (UA_Client_renewSecureChannel connectStatus now crs).sentRenewal = false) := by
  refine ⟨?_, ?_, ?_, ?_, ?_, ?_⟩
  · simp [renewalDue]
  · intro hdue
    simp [UA_Client_renewSecureChannel, hdue]
  · intro hdue
    cases hst : crs.state <;> simp [UA_Client_renewSecureChannel, hdue, hst]
  · cases hdue : renewalDue now crs <;> cases hst : crs.state <;>
      simp [UA_Client_renewSecureChannel, hdue, hst]
  · cases hdue : renewalDue now crs <;> cases hst : crs.state <;>
      simp [UA_Client_renewSecureChannel, hdue, hst]
  · intro hst
    cases hdue : renewalDue now crs <;>
      simp [UA_Client_renewSecureChannel, hdue, hst]

/-- C9: `UA_Client_cancelByRequestId` fails with `UA_STATUSCODE_BADNOTFOUND`
— sending no cancel request and leaving the state unchanged — exactly when
no entry with that requestId is still pending, and otherwise delegates to
`UA_Client_cancelByRequestHandle` with the requestHandle of the still-pending
entry it resolved. -/
theorem cancelByRequestId_resolves_handle (rid : Nat) (cancelled : List Nat)
    (countOut : Bool) (st : ClientState) :
    (rid ∉ pendingIds st →
      UA_Client_cancelByRequestId rid cancelled countOut st =
        { statusCode := UA_STATUSCODE_BADNOTFOUND, cancelSent := false
          cancelCount := none, finalState := st }) ∧
    ((UA_Client_cancelByRequestId rid cancelled countOut st).statusCode =
        UA_STATUSCODE_BADNOTFOUND ↔ rid ∉ pendingIds st) ∧
    (∀ p, st.pending.find? (fun q => q.requestId == rid) = some p →
      UA_Client_cancelByRequestId rid cancelled countOut st =
        UA_Client_cancelByRequestHandle p.requestHandle cancelled countOut st) := by
  cases hfind : st.pending.find? (fun p => p.requestId == rid) with
  | none =>
    have hnot : rid ∉ pendingIds st := by
      intro hmem
      rcases List.mem_map.mp hmem with ⟨q, hq, rfl⟩
      have := List.find?_eq_none.mp hfind q hq
      simp at this
    refine ⟨fun _ => ?_, ?_, ?_⟩
    · simp [UA_Client_cancelByRequestId, hfind]
    · simp [UA_Client_cancelByRequestId, hfind, hnot]
    · intro p hp
      cases hp
  | some p₀ =>
    have hp₀ : p₀ ∈ st.pending := List.mem_of_find?_eq_some hfind
    have hpid : p₀.requestId = rid := by
      simpa using List.find?_some hfind
    have hmem : rid ∈ pendingIds st :=
      hpid ▸ List.mem_map_of_mem PendingRequest.requestId hp₀
    refine ⟨fun hnot => absurd hmem hnot, ?_, ?_⟩
    · simp [UA_Client_cancelByRequestId, hfind, UA_Client_cancelByRequestHandle,
        UA_STATUSCODE_GOOD, UA_STATUSCODE_BADNOTFOUND, hmem]
    · intro p hp
      injection hp with hpe
      rw [← hpe]
      simp [UA_Client_cancelByRequestId, hfind]

/-- C10: for both cancellation entry points, a NULL `cancelCount` output
pointer changes nothing but the written count: the returned status, whether
a cancel request is sent, and the final client state are identical to the
non-NULL call, the NULL call writes no count, and the non-NULL call writes
the count of server-cancelled operations. -/
theorem cancelCount_null_pointer_optional (hdl rid : Nat) (cancelled : List Nat)
    (st : ClientState) :
    ((UA_Client_cancelByRequestHandle hdl cancelled true st).statusCode =
      (UA_Client_cancelByRequestHandle hdl cancelled false st).statusCode) ∧
    ((UA_Client_cancelByRequestHandle hdl cancelled true st).cancelSent =
      (UA_Client_cancelByRequestHandle hdl cancelled false st).cancelSent) ∧
    ((UA_Client_cancelByRequestHandle hdl cancelled true st).finalState =
      (UA_Client_cancelByRequestHandle hdl cancelled false st).finalState) ∧
    ((UA_Client_cancelByRequestHandle hdl cancelled false st).cancelCount = none) ∧
    ((UA_Client_cancelByRequestHandle hdl cancelled true st).cancelCount =
      some (((st.pending.filter (fun p => p.requestHandle == hdl)).filter
        (fun p => cancelled.contains p.requestId)).length)) ∧
    ((UA_Client_cancelByRequestId rid cancelled true st).statusCode =
      (UA_Client_cancelByRequestId rid cancelled false st).statusCode) ∧
    ((UA_Client_cancelByRequestId rid cancelled true st).cancelSent =
      (UA_Client_cancelByRequestId rid cancelled false st).cancelSent) ∧
    ((UA_Client_cancelByRequestId rid cancelled true st).finalState =
      (UA_Client_cancelByRequestId rid cancelled false st).finalState) ∧
    ((UA_Client_cancelByRequestId rid cancelled false st).cancelCount = none) := by
  cases hfind : st.pending.find? (fun p => p.requestId == rid) <;>
    simp [UA_Client_cancelByRequestHandle, UA_Client_cancelByRequestId, hfind]

/-- C8: `UA_Client_cancelByRequestHandle` removes nothing from the registry
(the state is returned untouched); the count it reports is at most the
number k of pending requests sharing the handle; and over any continuation
of the trace, the number of callback invocations attributable to those k
requests never exceeds k. -/
theorem cancelByHandle_no_local_removal (cfg : Config) (acts more : List Action)
    (hdl : Nat) (cancelled : List Nat) (countOut : Bool) :
    ((UA_Client_cancelByRequestHandle hdl cancelled countOut
        (run cfg initState acts)).finalState = run cfg initState acts) ∧
    (∀ c, (UA_Client_cancelByRequestHandle hdl cancelled countOut
        (run cfg initState acts)).cancelCount = some c →
      c ≤ ((run cfg initState acts).pending.filter
        (fun p => p.requestHandle == hdl)).length) ∧
    (((run cfg initState (acts ++ more)).events.filter (fun e =>
        (((run cfg initState acts).pending.filter
            (fun p => p.requestHandle == hdl)).map
          PendingRequest.requestId).contains e.requestId)).length ≤
      ((run cfg initState acts).pending.filter
        (fun p => p.requestHandle == hdl)).length) := by
  refine ⟨rfl, ?_, ?_⟩
  · intro c hc
    cases countOut with
    | false => simp [UA_Client_cancelByRequestHandle] at hc
    | true =>
      simp only [UA_Client_cancelByRequestHandle, if_pos, Option.some.injEq] at hc
      rw [← hc]
      exact List.length_filter_le _ _
  · have h₂ := inv_reach cfg (acts ++ more)
    have hsubl : ((run cfg initState (acts ++ more)).events.filter (fun e =>
        (((run cfg initState acts).pending.filter
            (fun p => p.requestHandle == hdl)).map
          PendingRequest.requestId).contains e.requestId)).Sublist
        (run cfg initState (acts ++ more)).events :=
      List.filter_sublist _
    have hnodup : (((run cfg initState (acts ++ more)).events.filter (fun e =>
        (((run cfg initState acts).pending.filter
            (fun p => p.requestHandle == hdl)).map
          PendingRequest.requestId).contains e.requestId)).map
        CompletionEvent.requestId).Nodup :=
      h₂.ev_nodup.sublist (hsubl.map CompletionEvent.requestId)
    have hsubset : (((run cfg initState (acts ++ more)).events.filter (fun e =>
        (((run cfg initState acts).pending.filter
            (fun p => p.requestHandle == hdl)).map
          PendingRequest.requestId).contains e.requestId)).map
        CompletionEvent.requestId) ⊆
        (((run cfg initState acts).pending.filter
            (fun p => p.requestHandle == hdl)).map
          PendingRequest.requestId) := by
      intro x hx
      rcases List.mem_map.mp hx with ⟨e, he, rfl⟩
      have hq := (List.mem_filter.mp he).2
      simpa using hq
    have hsp := List.subperm_of_subset hnodup hsubset
    have hle := hsp.length_le
    simpa [List.length_map] using hle

/-- C3: deadline bookkeeping and single timeout callback.  A successful
dispatch records deadline = dispatchTime + (timeoutHint when present, else
config->timeout).  In any reachable state, when an entry's deadline has
elapsed the sweep delivers exactly one callback for its requestId, carrying
`UA_STATUSCODE_BADTIMEOUT`, removes it from the registry, and a real
response for that requestId arriving after the sweep is discarded silently
— the state is unchanged and no second callback occurs. -/
theorem request_timeout_single_callback (cfg : Config) (acts : List Action)
    (p : PendingRequest) (now lateStatus : Nat)
    (hp : p ∈ (run cfg initState acts).pending)
    (hd : p.deadline ≤ now) :
    (((sweepTimeouts now (run cfg initState acts)).events.filter
        (fun e => e.requestId == p.requestId)).map CompletionEvent.status =
      [UA_STATUSCODE_BADTIMEOUT]) ∧
    p.requestId ∉ pendingIds (sweepTimeouts now (run cfg initState acts)) ∧
    (routeResponse p.requestId lateStatus
        (sweepTimeouts now (run cfg initState acts)) =
      sweepTimeouts now (run cfg initState acts)) ∧
    (∀ (st₀ : ClientState) (now₀ : Nat) (th₀ hdl₀ : Option Nat) (shape₀ : UAType),
      st₀.shuttingDown = false →
      ∃ q : PendingRequest,
        __UA_Client_AsyncService cfg now₀ true th₀ hdl₀ shape₀ st₀ =
          .ok (q.requestId, { st₀ with
            pending := st₀.pending ++ [q]
            nextRequestId := st₀.nextRequestId + 1
            nextAutoHandle :=
              if hdl₀.isNone then st₀.nextAutoHandle + 1 else st₀.nextAutoHandle
            dispatched := st₀.dispatched ++ [(q.requestId, q.requestHandle)] }) ∧
        q.dispatchTime = now₀ ∧
        q.deadline = now₀ + th₀.getD cfg.timeout) := by
  have h := inv_reach cfg acts
  have hpexp : expired now p = true := by
    simp [expired, hd]
  have hold : (run cfg initState acts).events.filter
      (fun e => e.requestId == p.requestId) = [] := by
    refine List.filter_eq_nil_iff.mpr (fun e he hbeq => ?_)
    have heq : e.requestId = p.requestId := by simpa using hbeq
    exact h.pend_ev_disj p.requestId
      (List.mem_map_of_mem PendingRequest.requestId hp)
      (heq ▸ List.mem_map_of_mem CompletionEvent.requestId he)
  have hnew : (((run cfg initState acts).pending.filter (expired now)).map
      timeoutEvent).filter (fun e => e.requestId == p.requestId) =
      [timeoutEvent p] := by
    rw [← map_filter_swap timeoutEvent
      (fun x => x.requestId == p.requestId)
      ((run cfg initState acts).pending.filter (expired now))]
    show (((run cfg initState acts).pending.filter (expired now)).filter
      (fun a => a.requestId == p.requestId)).map timeoutEvent = [timeoutEvent p]
    rw [filter_filter_swap, filter_singleton_of_nodup_key h.pend_nodup hp]
    simp [List.filter_cons, hpexp]
  have hfilter : (sweepTimeouts now (run cfg initState acts)).events.filter
      (fun e => e.requestId == p.requestId) = [timeoutEvent p] := by
    show ((run cfg initState acts).events ++
        ((run cfg initState acts).pending.filter (expired now)).map
          timeoutEvent).filter (fun e => e.requestId == p.requestId) =
      [timeoutEvent p]
    rw [List.filter_append, hold, hnew, List.nil_append]
  have hnp : p.requestId ∉ pendingIds (sweepTimeouts now (run cfg initState acts)) := by
    intro hmem
    rcases List.mem_map.mp hmem with ⟨q, hq, heq⟩
    rcases List.mem_filter.mp hq with ⟨hqmem, hqkept⟩
    have hqp : q = p := List.inj_on_of_nodup_map h.pend_nodup hqmem hp heq
    rw [hqp, hpexp] at hqkept
    cases hqkept
  have hnone : (sweepTimeouts now (run cfg initState acts)).pending.find?
      (fun q => q.requestId == p.requestId) = none := by
    refine List.find?_eq_none.mpr (fun q hq hbeq => ?_)
    have heq : q.requestId = p.requestId := by simpa using hbeq
    exact hnp (heq ▸ List.mem_map_of_mem PendingRequest.requestId hq)
  refine ⟨?_, hnp, ?_, ?_⟩
  · rw [hfilter]
    rfl
  · simp [routeResponse, hnone]
  · intro st₀ now₀ th₀ hdl₀ shape₀ hs
    exact ⟨{ requestId := st₀.nextRequestId
             requestHandle := hdl₀.getD st₀.nextAutoHandle
             shape := shape₀, dispatchTime := now₀
             deadline := now₀ + th₀.getD cfg.timeout },
      asyncService_ok cfg now₀ th₀ hdl₀ shape₀ st₀ hs, rfl, rfl⟩

/-- C3 witness: a request dispatched at time 0 with the connection-default
timeout 5 is pending with deadline 5; sweeping at time 5 times it out and a
late response for requestId 1 is then discarded. -/
theorem request_timeout_single_callback_witness :
    ({ requestId := 1, requestHandle := 100001, shape := UAType.readResponse,
       dispatchTime := 0, deadline := 5 } : PendingRequest) ∈
      (run { timeout := 5 } initState
        [Action.dispatch 0 true none none UAType.readResponse]).pending ∧
    ({ requestId := 1, requestHandle := 100001, shape := UAType.readResponse,
       dispatchTime := 0, deadline := 5 } : PendingRequest).deadline ≤ 5 ∧
    routeResponse 1 0 (sweepTimeouts 5 (run { timeout := 5 } initState
        [Action.dispatch 0 true none none UAType.readResponse])) =
      sweepTimeouts 5 (run { timeout := 5 } initState
        [Action.dispatch 0 true none none UAType.readResponse]) :=
  ⟨by decide, by decide,
    (request_timeout_single_callback { timeout := 5 }
      [Action.dispatch 0 true none none UAType.readResponse]
      { requestId := 1, requestHandle := 100001, shape := UAType.readResponse,
        dispatchTime := 0, deadline := 5 } 5 0 (by decide) (by decide)).2.2.1⟩

/-- C4 counterexample: the single-attribute write adapters declared by the
`UA_CLIENT_ASYNCWRITE` macro take a `UA_ClientAsyncWriteCallback`, whose
argument list is `(client, userdata, requestId, UA_WriteResponse *wr)` —
there is no separate status argument and no typed value pointer, so a
write adapter's callback does not have the claimed uniform
`(context, requestId, status, value)` shape. -/
theorem write_adapter_callback_shape_not_uniform :
    hasUniformOperationShape UA_CLIENT_ASYNCWRITE_callback = false := rfl

/-- C4 (amended): the uniform `(context, requestId, status, value)` shape —
value non-null only when the status is good, only the value's type
differing — holds for the generic operation callback and for every
single-attribute read adapter; the single-attribute write adapters, the
single-object method-call adapter and the single-node creation adapters
instead receive the full service response
`(context, requestId, response pointer)` with no separate status or value
argument. -/
theorem single_operation_callback_shapes :
    ([UA_ClientAsyncOperationCallback,
      UA_ClientAsyncReadAttributeCallback,
      UA_ClientAsyncReadValueAttributeCallback,
      UA_ClientAsyncReadDataTypeAttributeCallback,
      UA_ClientReadArrayDimensionsAttributeCallback,
      UA_ClientAsyncReadNodeClassAttributeCallback,
      UA_ClientAsyncReadBrowseNameAttributeCallback,
      UA_ClientAsyncReadDisplayNameAttributeCallback,
      UA_ClientAsyncReadDescriptionAttributeCallback,
      UA_ClientAsyncReadWriteMaskAttributeCallback,
      UA_ClientAsyncReadUserWriteMaskAttributeCallback,
      UA_ClientAsyncReadIsAbstractAttributeCallback,
      UA_ClientAsyncReadSymmetricAttributeCallback,
      UA_ClientAsyncReadInverseNameAttributeCallback,
      UA_ClientAsyncReadContainsNoLoopsAttributeCallback,
      UA_ClientAsyncReadEventNotifierAttributeCallback,
      UA_ClientAsyncReadValueRankAttributeCallback,
      UA_ClientAsyncReadAccessLevelAttributeCallback,
      UA_ClientAsyncReadAccessLevelExAttributeCallback,
      UA_ClientAsyncReadUserAccessLevelAttributeCallback,
      UA_ClientAsyncReadMinimumSamplingIntervalAttributeCallback,
      UA_ClientAsyncReadHistorizingAttributeCallback,
      UA_ClientAsyncReadExecutableAttributeCallback,
      UA_ClientAsyncReadUserExecutableAttributeCallback].all
        hasUniformOperationShape = true) ∧
    UA_CLIENT_ASYNCWRITE_callback =
      [.client, .userdata, .requestId, .responsePtr .writeResponse] ∧
    UA_Client_call_async_callback =
      [.client, .userdata, .requestId, .responsePtr .callResponse] ∧
    UA_Client_addNode_async_callback =
      [.client, .userdata, .requestId, .responsePtr .addNodesResponse] ∧
    (hasUniformOperationShape UA_CLIENT_ASYNCWRITE_callback = false) ∧
    (hasUniformOperationShape UA_Client_call_async_callback = false) ∧
    (hasUniformOperationShape UA_Client_addNode_async_callback = false) ∧
    (∀ (s : Nat) (d : Option UAType),
      isGoodStatus s = false → adapterValueArg s d = none) ∧
    (∀ (s : Nat) (d : Option UAType),
      adapterValueArg s d ≠ none → isGoodStatus s = true) := by
  refine ⟨rfl, rfl, rfl, rfl, rfl, rfl, rfl, ?_, ?_⟩
  · intro s d hbad
    simp [adapterValueArg, hbad]
  · intro s d hne
    cases hg : isGoodStatus s with
    | true => rfl
    | false =>
      rw [adapterValueArg, if_neg (by simp [hg])] at hne
      exact absurd rfl hne

end Open62541
